import Mathlib

/-!
Verification of the content-to-assessment generation pipeline of the
Assessments repository.  The Python sources are shallowly embedded: Python
strings become Lean `String`, Python string primitives (`lower`, `strip`,
`in`, `startswith`, `split`, `title`) are modelled over the underlying
character lists, Python `int` arithmetic becomes `Nat`/`Int` arithmetic,
floating-point division of small integers becomes exact division in `ℚ`,
and the Supabase store plus the in-memory dedup cache become an explicit
state record threaded through the persistence operations.
-/

set_option maxRecDepth 20000
set_option maxHeartbeats 2000000

/-! ## Python string primitives -/

/-- Python `pat in s` (substring containment) on character lists. -/
def listInfixOf : List Char → List Char → Bool
  | pat, [] => pat.isEmpty
  | pat, c :: t => pat.isPrefixOf (c :: t) || listInfixOf pat t

/-- Python `pat in s` for strings. -/
def pyContains (s pat : String) : Bool := listInfixOf pat.data s.data

/-- Python `s.startswith(pre)`. -/
def pyStartsWith (s pre : String) : Bool := pre.data.isPrefixOf s.data

/-- Python `len(s)` (number of characters). -/
def pyLen (s : String) : Nat := s.data.length

/-- Python `s.lower()` (ASCII case folding, which covers every string the
pipeline manipulates). -/
def pyLower (s : String) : String := ⟨s.data.map Char.toLower⟩

/-- Python `s.upper()`. -/
def pyUpper (s : String) : String := ⟨s.data.map Char.toUpper⟩

/-- Python `s.strip()`: remove leading and trailing whitespace. -/
def pyStrip (s : String) : String :=
  ⟨((s.data.dropWhile Char.isWhitespace).reverse.dropWhile Char.isWhitespace).reverse⟩

/-- Python `s[:n]`. -/
def pyTake (s : String) (n : Nat) : String := ⟨s.data.take n⟩

/-- Helper for `pyWords`: split a character list on whitespace runs,
dropping empty pieces, with the current in-progress word accumulated in
reverse. -/
def pyWordsAux : List Char → List Char → List String
  | [], acc => if acc.isEmpty then [] else [⟨acc.reverse⟩]
  | c :: cs, acc =>
    if c.isWhitespace then
      if acc.isEmpty then pyWordsAux cs [] else (⟨acc.reverse⟩ : String) :: pyWordsAux cs []
    else pyWordsAux cs (c :: acc)

/-- Python `s.split()` with no argument: split on whitespace runs, no empty
pieces. -/
def pyWords (s : String) : List String := pyWordsAux s.data []

/-- Helper for `pyTitle`: the boolean records whether the previous character
was alphabetic. -/
def pyTitleAux : List Char → Bool → List Char
  | [], _ => []
  | c :: cs, prevAlpha =>
    if c.isAlpha then
      (if prevAlpha then c.toLower else c.toUpper) :: pyTitleAux cs true
    else c :: pyTitleAux cs false

/-- Python `s.title()` restricted to ASCII letters: the first letter of each
alphabetic run is uppercased, the rest lowercased. -/
def pyTitle (s : String) : String := ⟨pyTitleAux s.data false⟩

/-! ## The validator

From `AssessmentGenerator.validate_question`.  The two copies of the
function (src/generate_all_assessments.py lines 246-330 and
src/scripts/generate_all_assessments.py lines 395-479) have identical
bodies, so one embedding covers both. -/

/-- A candidate question as produced by the synthesizer.  The Python code
receives a dict; the pipeline only ever passes string-valued fields and a
list of string options, which is what the embedding models. -/
structure CandidateQuestion where
  question : String
  options : List String
  correct_answer : String
  explanation : String
  difficulty : String
  topic : String
  deriving Repr, DecidableEq

/-- The banned metadata substrings of `validate_question`. -/
def banned_patterns : List String :=
  ["pdf_", "video_", ".pdf", ".mp4", ".avi", ".mov",
   "file name", "filename", "file title", "video title",
   "timestamp", "2025-", "2024-", "2023-", "2022-",
   "chunk", "embedding", "metadata",
   "what is the name", "what is the title", "what is the file"]

/-- The banned generic openers of `validate_question`. -/
def generic_questions : List String :=
  ["what is python", "what is a variable", "what is a function",
   "what is a loop", "what is a list", "what is a dictionary",
   "what is python used for", "what is the purpose of python"]

/-- The accepted option letters. -/
def letter_answers : List String := ["A", "B", "C", "D"]

/-- `AssessmentGenerator.validate_question`, translated check by check in
the order of the source. -/
def validate_question (q : CandidateQuestion) : Bool :=
  if pyStrip q.question = "" then false
  else if banned_patterns.any (fun p => pyContains (pyLower q.question) p) then false
  else if generic_questions.any (fun g => pyStartsWith (pyLower q.question) g) then false
  else if pyLen (pyStrip q.question) < 30 then false
  else if q.options.length ≠ 4 then false
  else if ¬ (q.options.all fun o => pyStrip o ≠ "") then false
  else if pyStrip q.correct_answer = "" then false
  else if ¬ (letter_answers.contains (pyUpper (pyStrip q.correct_answer))
             || q.options.contains (pyStrip q.correct_answer)) then false
  else if pyStrip q.explanation = "" then false
  else if ¬ (["easy", "medium", "hard"].contains (pyLower q.difficulty)) then false
  else if pyStrip q.topic = "" then false
  else true

/-! ## Generation controller (retry/acceptance)

From `AssessmentGenerator.generate_questions_from_pdf_content`.  Both
copies loop `for attempt in range(MAX_RETRIES)` with
`NUM_QUESTIONS_PER_PDF = 20` and `MAX_RETRIES = 3`.  After validating the
parsed candidates an attempt either returns a batch, retries, or (on the
last attempt) returns the empty list; the decision depends only on the
number of valid candidates, the number of invalid candidates, and the
attempt index, which is what the embedding records. -/

def NUM_QUESTIONS_PER_PDF : Nat := 20

def MAX_RETRIES : Nat := 3

/-- Result of one generation attempt: return an accepted batch of the given
size, retry the whole batch, or give up (an empty-list return). -/
inductive GenOutcome where
  | accepted (count : Nat)
  | retry
  | failed
  deriving Repr, DecidableEq

/-- Per-attempt decision of the copy at src/generate_all_assessments.py
(lines 523-555): the regeneration branch there only logs, so control falls
through to the threshold checks. -/
def attemptDecisionRoot (valid : Nat) (attempt : Nat) : GenOutcome :=
  if valid ≥ NUM_QUESTIONS_PER_PDF then .accepted NUM_QUESTIONS_PER_PDF
  else if valid ≥ max 18 (NUM_QUESTIONS_PER_PDF - 2) then .accepted valid
  else if valid > 0 then
    if attempt < MAX_RETRIES - 1 then .retry
    else if valid ≥ 15 then .accepted valid else .failed
  else
    if attempt < MAX_RETRIES - 1 then .retry else .failed

/-- Per-attempt decision of the copy at
src/scripts/generate_all_assessments.py (lines 662-684): there the
regeneration branch ends in a sleep and a loop continue, so an attempt
with fewer than 20 valid candidates, at least one invalid candidate and
retries remaining restarts before reaching the threshold checks. -/
def attemptDecisionScripts (valid invalid attempt : Nat) : GenOutcome :=
  if valid < NUM_QUESTIONS_PER_PDF ∧ invalid > 0 ∧ attempt < MAX_RETRIES - 1 then .retry
  else attemptDecisionRoot valid attempt

/-- The full retry loop of the scripts copy over a list of per-attempt
validation results (valid count, invalid count), one entry per loop
iteration; the loop falling off the end returns the empty list. -/
def runAttemptsScripts : List (Nat × Nat) → Nat → GenOutcome
  | [], _ => .failed
  | (v, i) :: rest, attempt =>
    match attemptDecisionScripts v i attempt with
    | .retry => runAttemptsScripts rest (attempt + 1)
    | o => o

/-- Whether an outcome is an accepted batch. -/
def GenOutcome.isAccepted : GenOutcome → Bool
  | .accepted _ => true
  | _ => false

/-! ## Difficulty classifier

From `AssessmentGenerator.determine_difficulty_from_chunks`
(src/app/services/assessment_generator.py lines 168-200).  Chunks are
dicts whose `chunk_text` entry the function reads; Python float division
of the character counts is modelled as exact division in `ℚ`. -/

/-- A retrieved content chunk (only the text field is read by the
classifier). -/
structure Chunk where
  chunk_text : String
  deriving Repr, DecidableEq

/-- The technical indicator terms of `determine_difficulty_from_chunks`. -/
def technical_terms : List String :=
  ["function", "class", "method", "algorithm", "implementation",
   "complexity", "optimization", "architecture", "pattern"]

/-- `total_length`: summed character count of the chunk texts. -/
def totalLength (chunks : List Chunk) : Nat :=
  (chunks.map fun c => pyLen c.chunk_text).sum

/-- `avg_length = total_length / len(chunks) if chunks else 0`. -/
def avgLength (chunks : List Chunk) : ℚ :=
  if chunks ≠ [] then (totalLength chunks : ℚ) / (chunks.length : ℚ) else 0

/-- `tech_count`: the number of (chunk, term) pairs where the term occurs
in the lowercased chunk text. -/
def techCount (chunks : List Chunk) : Nat :=
  (chunks.map fun c =>
    (technical_terms.filter fun t => pyContains (pyLower c.chunk_text) (pyLower t)).length).sum

/-- `AssessmentGenerator.determine_difficulty_from_chunks`. -/
def determine_difficulty_from_chunks (chunks : List Chunk) : String :=
  if chunks = [] then "medium"
  else
    if avgLength chunks < 200 ∧ techCount chunks < 3 then "easy"
    else if avgLength chunks > 500 ∨ techCount chunks > 8 then "hard"
    else "medium"

/-! ## Topic and course classifiers

From `AssessmentGenerator.detect_course_name`
(src/scripts/generate_all_assessments.py lines 215-271) and
`AssessmentGenerator.extract_topic_from_source`
(src/app/services/assessment_generator.py lines 202-240). -/

/-- The DevOps course indicator lexicon. -/
def devops_indicators : List String :=
  ["devops", "docker", "kubernetes", "k8s", "jenkins",
   "sonarqube", "linux", "git", "ci/cd", "terraform",
   "ansible", "aws", "azure", "gcp", "networking", "cloud",
   "container", "orchestration", "deployment", "infrastructure"]

/-- The Python course indicator lexicon. -/
def python_indicators : List String :=
  ["python", "datatypes", "loops", "functions", "classes",
   "list", "dict", "tuple", "set", "comprehension", "decorator",
   "generator", "iterator", "exception", "import", "package"]

/-- The DevOps keywords consulted for titles containing the word module. -/
def devops_module_keywords : List String :=
  ["docker", "kubernetes", "sonarqube", "networking",
   "cloud", "devops", "linux", "jenkins", "terraform"]

/-- The search text `detect_course_name` builds from the optional title and
the id: the lowercased title when truthy, then a space and the lowercased
id when truthy, finally stripped. -/
def courseSearchText (pdf_title : Option String) (pdf_id : String) : String :=
  let s1 := match pdf_title with
    | some t => if t ≠ "" then pyLower t else ""
    | none => ""
  let s2 := if pdf_id ≠ "" then s1 ++ " " ++ pyLower pdf_id else s1
  pyStrip s2

/-- `AssessmentGenerator.detect_course_name`. -/
def detect_course_name (pdf_title : Option String) (pdf_id : String) : String :=
  let searchText := courseSearchText pdf_title pdf_id
  if devops_indicators.any (fun k => pyContains searchText k) then "DevOps"
  else if python_indicators.any (fun k => pyContains searchText k) then "Python"
  else if pyContains searchText "module" then
    if devops_module_keywords.any (fun k => pyContains searchText k) then "DevOps"
    else "Python"
  else "Python"

/-- The skill keyword table of `extract_topic_from_source`, in source
(insertion) order. -/
def skill_keywords : List (String × String) :=
  [("react", "React"),
   ("javascript", "JavaScript"),
   ("typescript", "TypeScript"),
   ("python", "Python"),
   ("java", "Java"),
   ("problem", "Problem Solving"),
   ("communication", "Communication"),
   ("teamwork", "Teamwork"),
   ("collaboration", "Communication & Collaboration")]

/-- `AssessmentGenerator.extract_topic_from_source`. -/
def extract_topic_from_source (source_name : String) (_source_type : String) : String :=
  match skill_keywords.find? (fun kv => pyContains (pyLower source_name) kv.1) with
  | some kv => kv.2
  | none =>
    if pyContains source_name " " ∧ pyWords source_name ≠ [] then
      pyTitle (pyWords source_name).head!
    else if source_name ≠ "" then pyTake source_name 30
    else "General"

/-! ## Mixed-difficulty distribution

From `AssessmentGenerator.generate_questions_from_chunks`
(src/app/services/assessment_generator.py lines 269-272) and the blueprint
built by `AssessmentGenerator.create_assessment_from_questions` (lines
556-565). -/

/-- The per-difficulty counts computed by `generate_questions_from_chunks`
for a mixed batch of size n. -/
def mixedDifficultyCounts (num_questions : Nat) : Nat × Nat × Nat :=
  let easy_count := num_questions / 3
  let medium_count := (num_questions * 2) / 3
  let hard_count := num_questions - easy_count - medium_count
  (easy_count, medium_count, hard_count)

/-- The `question_distribution` object stored in the blueprint by
`create_assessment_from_questions`. -/
def blueprintQuestionDistribution (question_count : Nat) : Nat × Nat × Nat :=
  (question_count / 3,
   (question_count * 2) / 3,
   question_count - question_count / 3 - (question_count * 2) / 3)

/-! ## Persistence and dedup layer

From src/scripts/generate_all_assessments.py: the assessments table, the
skill_assessment_questions table and the courses table become explicit
lists inside a `Store` record, and the in-memory
`assessment_cache : Dict[str, record]` becomes a function from keys to
optional records.  Fresh row ids are drawn from counters (the database
assigns opaque unique ids).  Only the success paths of the Supabase calls
are modelled; every claim under verification is about behaviour in the
absence of store errors. -/

/-- The blueprint JSON stored on an assessment row, as far as the pipeline
reads it: the optional `pdf_id` entry (`none` models an absent entry, an
unparsable blueprint, or a non-string value); the additional md5
`unique_hash` entry is never read back and is not modelled. -/
structure Blueprint where
  pdfId : Option String
  deriving Repr, DecidableEq

/-- An assessments-table row, restricted to the columns the script reads
back (`id, blueprint, course_id, status`). -/
structure AssessmentRecord where
  id : Nat
  blueprint : Option Blueprint
  courseId : Option Nat
  status : String
  deriving Repr, DecidableEq

/-- A skill_assessment_questions-table row, restricted to the linkage
columns the dedup checks read. -/
structure QuestionRow where
  assessmentId : Nat
  sourceId : String
  question : CandidateQuestion
  deriving Repr, DecidableEq

/-- The generator state: the three store tables, the id counters, and the
in-memory assessment cache keyed by pdf id. -/
structure GenState where
  assessments : List AssessmentRecord
  questions : List QuestionRow
  courses : List (Nat × String)
  nextAssessmentId : Nat
  nextCourseId : Nat
  assessment_cache : String → Option AssessmentRecord

/-- The empty cache. -/
def emptyCache : String → Option AssessmentRecord := fun _ => none

/-- Python dict assignment `cache[k] = v`. -/
def cacheInsert (c : String → Option AssessmentRecord) (k : String)
    (v : AssessmentRecord) : String → Option AssessmentRecord :=
  fun x => if x = k then some v else c x

/-- `AssessmentGenerator.extract_pdf_id`: parse the blueprint, read its
`pdf_id` entry, and return the stripped value when it strips to something
non-empty. -/
def extract_pdf_id (blueprint : Option Blueprint) : Option String :=
  match blueprint with
  | none => none
  | some bp =>
    match bp.pdfId with
    | none => none
    | some s => if pyStrip s ≠ "" then some (pyStrip s) else none

/-- The loop body of `_populate_assessment_cache`: key the row by its
extracted pdf id when one is present, otherwise leave the cache alone. -/
def cacheStep (c : String → Option AssessmentRecord) (record : AssessmentRecord) :
    String → Option AssessmentRecord :=
  match extract_pdf_id record.blueprint with
  | some pdfId => cacheInsert c pdfId record
  | none => c

/-- The cache built by `_populate_assessment_cache`: scan every assessment
row in order and key it by its extracted pdf id (later rows overwrite
earlier ones, as dict assignment does). -/
def buildCache (rows : List AssessmentRecord) : String → Option AssessmentRecord :=
  rows.foldl cacheStep emptyCache

/-- `AssessmentGenerator._populate_assessment_cache` as a state step. -/
def populate_assessment_cache (s : GenState) : GenState :=
  { s with assessment_cache := buildCache s.assessments }

/-- `AssessmentGenerator.check_assessment_exists_by_pdf_id`: consult the
cache; on a miss repopulate it from the store and look again.  The third
component records whether the store was queried (the cache refresh). -/
def check_assessment_exists_by_pdf_id (s : GenState) (pdf_id : String) :
    Option AssessmentRecord × GenState × Bool :=
  match s.assessment_cache pdf_id with
  | some cached => (some cached, s, false)
  | none =>
    let s1 := populate_assessment_cache s
    (s1.assessment_cache pdf_id, s1, true)

/-- `AssessmentGenerator.get_or_create_course`: strip the name, reject an
empty one, return the id of an existing course of that name, otherwise
insert a new row. -/
def get_or_create_course (s : GenState) (course_name : String) :
    Option Nat × GenState :=
  let name := pyStrip course_name
  if name = "" then (none, s)
  else
    match s.courses.find? (fun kv => kv.2 = name) with
    | some kv => (some kv.1, s)
    | none =>
      let cid := s.nextCourseId
      (some cid,
       { s with courses := s.courses ++ [(cid, name)], nextCourseId := cid + 1 })

/-- `AssessmentGenerator.create_assessment` (scripts copy, lines 780-856),
success path, called as in the pipeline without a pre-resolved course id:
duplicate check first; on a hit return the existing row id with no insert;
otherwise detect the course, get-or-create it, insert the new assessment
row with the pdf id in its blueprint, and put the new record into the
cache under the raw pdf id before returning. -/
def create_assessment (s : GenState) (pdf_id : String) (pdf_title : Option String) :
    Option Nat × GenState :=
  let checked := check_assessment_exists_by_pdf_id s pdf_id
  let s1 := checked.2.1
  match checked.1 with
  | some record => (some record.id, s1)
  | none =>
    let course_name := detect_course_name pdf_title pdf_id
    let gc := get_or_create_course s1 course_name
    let course_id := gc.1
    let s2 := gc.2
    let aid := s2.nextAssessmentId
    let new_record : AssessmentRecord :=
      { id := aid
        blueprint := some { pdfId := some pdf_id }
        courseId := course_id
        status := "published" }
    (some aid,
     { s2 with
        assessments := s2.assessments ++ [new_record]
        nextAssessmentId := aid + 1
        assessment_cache := cacheInsert s2.assessment_cache pdf_id new_record })

/-- `AssessmentGenerator.insert_questions` (scripts copy, lines 858-909),
success path: if any question row is already linked to the assessment,
insert nothing and report success; otherwise insert one row per question
and report success exactly when the insert returned data, i.e. when at
least one row was inserted. -/
def insert_questions (s : GenState) (assessment_id : Nat)
    (questions : List CandidateQuestion) (pdf_id : String) : Bool × GenState :=
  if s.questions.any (fun row => row.assessmentId = assessment_id) then (true, s)
  else
    let records := questions.map fun q =>
      ({ assessmentId := assessment_id, sourceId := pdf_id, question := q } : QuestionRow)
    (!records.isEmpty, { s with questions := s.questions ++ records })

/-- The initial state of a fresh pipeline process over a store carrying the
given rows: `__init__` populates the cache from the assessments table. -/
def initState (assessments : List AssessmentRecord) (questions : List QuestionRow)
    (courses : List (Nat × String)) (na nc : Nat) : GenState :=
  populate_assessment_cache
    { assessments := assessments
      questions := questions
      courses := courses
      nextAssessmentId := na
      nextCourseId := nc
      assessment_cache := emptyCache }

/-- A cache entry is consistent when it points at a store row whose
extracted pdf id is the entry key.  Caches built from the store satisfy
this; it is the invariant under which re-running the pipeline cannot
duplicate an assessment. -/
def cacheConsistent (s : GenState) : Prop :=
  ∀ k r, s.assessment_cache k = some r →
    r ∈ s.assessments ∧ extract_pdf_id r.blueprint = some k

/-! ## Claim theorems -/

/-- C7: for every requested mixed-difficulty batch size n, the counts are
easy = n / 3, medium = (2·n) / 3 computed from n directly, and
hard = n − easy − medium; easy + medium never exceeds n (so the Python
subtraction is an ordinary one), the three counts sum to exactly n, and
the blueprint distribution stored by `create_assessment_from_questions`
uses the same three formulas. -/
theorem mixed_difficulty_distribution_sums (n : Nat) :
    (mixedDifficultyCounts n).1 = n / 3 ∧
    (mixedDifficultyCounts n).2.1 = (2 * n) / 3 ∧
    (mixedDifficultyCounts n).1 + (mixedDifficultyCounts n).2.1 ≤ n ∧
    (mixedDifficultyCounts n).1 + (mixedDifficultyCounts n).2.1 +
      (mixedDifficultyCounts n).2.2 = n ∧
    blueprintQuestionDistribution n = mixedDifficultyCounts n := by
  unfold mixedDifficultyCounts blueprintQuestionDistribution
  refine ⟨rfl, by simp [Nat.mul_comm], ?_, ?_, rfl⟩ <;> simp <;> omega

/-- C4 counterexample: with a target of 20, the claimed acceptance
behaviour fails on the code in two concrete ways.  In the scripts copy an
attempt with 19 valid candidates, one invalid candidate and retries
remaining retries instead of accepting; and a run whose three attempts
each produce 17 valid candidates ends with the 17 questions returned (the
hard floor of 15 applies on the last attempt), not with a failure. -/
theorem acceptance_threshold_counterexample :
    attemptDecisionScripts 19 1 0 = .retry ∧
    attemptDecisionRoot 17 2 = .accepted 17 ∧
    runAttemptsScripts [(17, 0), (17, 0), (17, 0)] 0 = .accepted 17 := by
  decide

/-- C4 amended: with a target of 20, the root copy accepts exactly when the
valid count reaches 18 — or, once retries are exhausted, when it reaches
the hard floor of 15 — trimming to exactly 20 when 20 or more pass; the
scripts copy additionally retries any attempt with fewer than 20 valid
candidates, at least one invalid candidate and retries remaining; a count
of 17 retries while attempts remain and is returned, not failed, on the
final attempt. -/
theorem acceptance_threshold_characterization (v i a : Nat) :
    ((attemptDecisionRoot v a).isAccepted = true ↔
        18 ≤ v ∨ (2 ≤ a ∧ 15 ≤ v)) ∧
    ((attemptDecisionScripts v i a).isAccepted = true ↔
        (20 ≤ v ∨ i = 0 ∨ 2 ≤ a) ∧ (18 ≤ v ∨ (2 ≤ a ∧ 15 ≤ v))) ∧
    (20 ≤ v → attemptDecisionRoot v a = .accepted 20) ∧
    (18 ≤ v → v < 20 → attemptDecisionRoot v a = .accepted v) ∧
    (2 ≤ a → 15 ≤ v → v < 18 → attemptDecisionRoot v a = .accepted v) ∧
    (a < 2 → attemptDecisionScripts 17 i a = .retry ∧
             attemptDecisionRoot 17 a = .retry) := by
  have hroot : ∀ w b : Nat, (attemptDecisionRoot w b).isAccepted = true ↔
      18 ≤ w ∨ (2 ≤ b ∧ 15 ≤ w) := by
    intro w b
    simp only [attemptDecisionRoot, NUM_QUESTIONS_PER_PDF, MAX_RETRIES]
    split_ifs <;> simp [GenOutcome.isAccepted] <;> omega
  refine ⟨hroot v a, ?_, ?_, ?_, ?_, ?_⟩
  · simp only [attemptDecisionScripts, NUM_QUESTIONS_PER_PDF, MAX_RETRIES]
    split_ifs with hg
    · simp only [GenOutcome.isAccepted]
      constructor
      · intro h
        exact absurd h (by simp)
      · intro h
        exfalso
        omega
    · rw [hroot v a]
      omega
  · intro h
    simp only [attemptDecisionRoot, NUM_QUESTIONS_PER_PDF, MAX_RETRIES]
    split_ifs <;> first | rfl | (exfalso; omega)
  · intro h h2
    simp only [attemptDecisionRoot, NUM_QUESTIONS_PER_PDF, MAX_RETRIES]
    split_ifs <;> first | rfl | (exfalso; omega)
  · intro h h2 h3
    simp only [attemptDecisionRoot, NUM_QUESTIONS_PER_PDF, MAX_RETRIES]
    split_ifs <;> first | rfl | (exfalso; omega)
  · intro h
    constructor <;>
      · simp only [attemptDecisionScripts, attemptDecisionRoot,
          NUM_QUESTIONS_PER_PDF, MAX_RETRIES]
        split_ifs <;> first | rfl | (exfalso; omega)

/-- C4 witness: the characterization applied at concrete attempt data. -/
theorem acceptance_threshold_characterization_witness :
    attemptDecisionRoot 20 0 = .accepted 20 ∧
    attemptDecisionScripts 17 5 1 = .retry :=
  ⟨(acceptance_threshold_characterization 20 0 0).2.2.1 (by decide),
   ((acceptance_threshold_characterization 17 5 1).2.2.2.2.2 (by decide)).1⟩

/-- C2: an assessment's question set is written exactly once.  If a
question row is already linked to the assessment id, `insert_questions`
changes nothing and reports success; consequently a second call after a
first successful non-empty insertion reports success and inserts no
further rows. -/
theorem insert_questions_written_once (s : GenState) (aid : Nat)
    (qs qs2 : List CandidateQuestion) (pdf pdf2 : String) :
    ((∃ row ∈ s.questions, row.assessmentId = aid) →
        insert_questions s aid qs pdf = (true, s)) ∧
    (qs ≠ [] →
        insert_questions (insert_questions s aid qs pdf).2 aid qs2 pdf2 =
          (true, (insert_questions s aid qs pdf).2)) := by
  constructor
  · rintro ⟨row, hmem, hid⟩
    have hany : (s.questions.any fun row => row.assessmentId = aid) = true :=
      List.any_eq_true.mpr ⟨row, hmem, by simp [hid]⟩
    simp [insert_questions, hany]
  · intro hqs
    obtain ⟨q, qs1, rfl⟩ := List.exists_cons_of_ne_nil hqs
    by_cases hany : (s.questions.any fun row => row.assessmentId = aid) = true
    · simp [insert_questions, hany]
    · have hany2 :
          (((s.questions ++
              ((q :: qs1).map fun q =>
                ({ assessmentId := aid, sourceId := pdf, question := q } :
                  QuestionRow))).any fun row => row.assessmentId = aid) = true) := by
        refine List.any_eq_true.mpr ?_
        refine ⟨{ assessmentId := aid, sourceId := pdf, question := q }, ?_, by simp⟩
        simp
      simp [insert_questions, hany, hany2]

/-- C2 witness: the first part applied at a one-row state, the second at
the empty store. -/
theorem insert_questions_written_once_witness :
    insert_questions
      { assessments := [], courses := [], nextAssessmentId := 0, nextCourseId := 0,
        assessment_cache := emptyCache,
        questions := [{ assessmentId := 5, sourceId := "p",
                        question := { question := "q", options := [],
                                      correct_answer := "", explanation := "",
                                      difficulty := "", topic := "" } }] }
      5 [] "p" =
    (true,
      { assessments := [], courses := [], nextAssessmentId := 0, nextCourseId := 0,
        assessment_cache := emptyCache,
        questions := [{ assessmentId := 5, sourceId := "p",
                        question := { question := "q", options := [],
                                      correct_answer := "", explanation := "",
                                      difficulty := "", topic := "" } }] }) :=
  (insert_questions_written_once _ 5 [] [] "p" "p").1
    ⟨_, List.mem_singleton_self _, rfl⟩

/-- C10: the difficulty classifier returns medium on the empty chunk list
via its early return, and for every non-empty chunk list the computed
average is a true average — it satisfies avg · length = total — so the
division it performs is never a division by zero. -/
theorem difficulty_empty_chunks_medium :
    determine_difficulty_from_chunks [] = "medium" ∧
    ∀ chunks : List Chunk, chunks ≠ [] →
      avgLength chunks * (chunks.length : ℚ) = (totalLength chunks : ℚ) := by
  constructor
  · rfl
  · intro chunks h
    have hlen : (chunks.length : ℚ) ≠ 0 := by
      simpa using List.length_pos.mpr h |>.ne'
    simp [avgLength, h, div_mul_cancel₀ _ hlen]

/-- C10 witness: the average property applied at a concrete one-chunk
list. -/
theorem difficulty_empty_chunks_medium_witness :
    avgLength [⟨"ab"⟩] * (([(⟨"ab"⟩ : Chunk)] : List Chunk).length : ℚ) =
      (totalLength [⟨"ab"⟩] : ℚ) :=
  difficulty_empty_chunks_medium.2 [⟨"ab"⟩] (by decide)

/-- A chunk of 150 characters containing exactly two technical terms. -/
def chunkLen150 : Chunk := ⟨"function class " ++ ⟨List.replicate 135 'x'⟩⟩

/-- A chunk of 600 characters containing no technical term. -/
def chunkLen600 : Chunk := ⟨⟨List.replicate 600 'y'⟩⟩

/-- A chunk of 300 characters containing exactly four technical terms. -/
def chunkLen300 : Chunk := ⟨"function class method algorithm " ++ ⟨List.replicate 268 'x'⟩⟩

/-- C5: difficulty classification is a pure function of average chunk
length and technical-keyword count following the easy/hard/medium rules of
the source, and the three boundary instances of the spec hold: average
length 150 with 2 keyword hits is easy, average length 600 is hard,
average length 300 with 4 keyword hits is medium. -/
theorem difficulty_classification_rules :
    (∀ chunks : List Chunk, chunks ≠ [] →
      ((determine_difficulty_from_chunks chunks = "easy" ↔
          avgLength chunks < 200 ∧ techCount chunks < 3) ∧
       (determine_difficulty_from_chunks chunks = "hard" ↔
          ¬(avgLength chunks < 200 ∧ techCount chunks < 3) ∧
          (avgLength chunks > 500 ∨ techCount chunks > 8)) ∧
       (determine_difficulty_from_chunks chunks = "medium" ↔
          ¬(avgLength chunks < 200 ∧ techCount chunks < 3) ∧
          ¬(avgLength chunks > 500 ∨ techCount chunks > 8)))) ∧
    avgLength [chunkLen150] = 150 ∧ techCount [chunkLen150] = 2 ∧
    determine_difficulty_from_chunks [chunkLen150] = "easy" ∧
    avgLength [chunkLen600] = 600 ∧
    determine_difficulty_from_chunks [chunkLen600] = "hard" ∧
    avgLength [chunkLen300] = 300 ∧ techCount [chunkLen300] = 4 ∧
    determine_difficulty_from_chunks [chunkLen300] = "medium" := by
  have ht150 : totalLength [chunkLen150] = 150 := by decide
  have hc150 : techCount [chunkLen150] = 2 := by decide
  have ht600 : totalLength [chunkLen600] = 600 := by decide
  have hc600 : techCount [chunkLen600] = 0 := by decide
  have ht300 : totalLength [chunkLen300] = 300 := by decide
  have hc300 : techCount [chunkLen300] = 4 := by decide
  have ha150 : avgLength [chunkLen150] = 150 := by
    simp [avgLength, ht150]
  have ha600 : avgLength [chunkLen600] = 600 := by
    simp [avgLength, ht600]
  have ha300 : avgLength [chunkLen300] = 300 := by
    simp [avgLength, ht300]
  constructor
  · intro chunks h
    simp only [determine_difficulty_from_chunks, if_neg h]
    split_ifs with h1 h2 <;> refine ⟨?_, ?_, ?_⟩ <;> simp_all
  · refine ⟨ha150, hc150, ?_, ha600, ?_, ha300, hc300, ?_⟩
    · unfold determine_difficulty_from_chunks
      rw [if_neg (by simp), if_pos ⟨by rw [ha150]; norm_num, by rw [hc150]; norm_num⟩]
    · have h1 : ¬(avgLength [chunkLen600] < 200 ∧ techCount [chunkLen600] < 3) := by
        rw [ha600]; norm_num
      have h2 : avgLength [chunkLen600] > 500 ∨ techCount [chunkLen600] > 8 :=
        Or.inl (by rw [ha600]; norm_num)
      unfold determine_difficulty_from_chunks
      rw [if_neg (by simp), if_neg h1, if_pos h2]
    · have h1 : ¬(avgLength [chunkLen300] < 200 ∧ techCount [chunkLen300] < 3) := by
        rw [ha300]; norm_num
      have h2 : ¬(avgLength [chunkLen300] > 500 ∨ techCount [chunkLen300] > 8) := by
        rw [ha300, hc300]; norm_num
      unfold determine_difficulty_from_chunks
      rw [if_neg (by simp), if_neg h1, if_neg h2]

/-- C5 witness: the classification rule applied at the concrete 150/600
chunk lists. -/
theorem difficulty_classification_rules_witness :
    determine_difficulty_from_chunks [chunkLen150] = "easy" ∧
    determine_difficulty_from_chunks [chunkLen600] = "hard" := by
  have h := difficulty_classification_rules
  refine ⟨((h.1 [chunkLen150] (by simp)).1).mpr ?_,
          ((h.1 [chunkLen600] (by simp)).2.1).mpr ?_⟩
  · rw [h.2.1, h.2.2.1]; norm_num
  · constructor
    · rw [h.2.2.2.2.1]; norm_num
    · exact Or.inl (by rw [h.2.2.2.2.1]; norm_num)

/-- A well-formed candidate used as the base of the malformed variants. -/
def baseCandidate : CandidateQuestion :=
  { question := "Which loop construct repeats a block while its guard remains satisfied?"
    options := ["while", "for", "match", "with"]
    correct_answer := "A"
    explanation := "A while loop tests its guard before every iteration."
    difficulty := "easy"
    topic := "Loops" }

/-- Malformed candidate: empty question text. -/
def malformedEmptyText : CandidateQuestion := { baseCandidate with question := "" }

/-- Malformed candidate: question text containing the banned substring
pdf_ . -/
def malformedPdfUnderscore : CandidateQuestion :=
  { baseCandidate with
      question := "What does the pdf_ prefix indicate in these stored identifiers today?" }

/-- Malformed candidate: only three options. -/
def malformedThreeOptions : CandidateQuestion :=
  { baseCandidate with options := ["while", "for", "match"] }

/-- Malformed candidate: correct_answer E with four options and no literal
match. -/
def malformedAnswerE : CandidateQuestion := { baseCandidate with correct_answer := "E" }

/-- Malformed candidate: empty explanation. -/
def malformedEmptyExplanation : CandidateQuestion :=
  { baseCandidate with explanation := "" }

/-- Malformed candidate: difficulty trivial. -/
def malformedDifficultyTrivial : CandidateQuestion :=
  { baseCandidate with difficulty := "trivial" }

/-- An otherwise well-formed candidate whose question text contains the
bare word pdf — with no pdf_ prefix and no .pdf extension. -/
def candidateWithBarePdf : CandidateQuestion :=
  { question := "Why does converting a pdf to plain text sometimes reorder the words on a page?"
    options := ["Text objects are stored out of visual order",
                "Fonts are always subset", "Pages are rasterized first",
                "Compression removes spaces"]
    correct_answer := "A"
    explanation := "Extraction follows internal object order, which need not match visual order."
    difficulty := "medium"
    topic := "Documents" }

/-- C3 counterexample: the validator accepts a candidate whose question
text contains the literal substring pdf, so bare pdf is not among the
banned metadata substrings — only the prefix form pdf_ and the extension
form .pdf are. -/
theorem validator_accepts_bare_pdf :
    pyContains (pyLower candidateWithBarePdf.question) "pdf" = true ∧
    validate_question candidateWithBarePdf = true := by decide

/-- C3 amended: the validator is a deterministic predicate that rejects a
candidate if and only if at least one rule fires — question text empty;
text containing a banned metadata substring (the source list, whose file
patterns are pdf_ and .pdf rather than bare pdf); text starting with a
banned generic opener; trimmed text shorter than 30 characters; options
not exactly 4 non-empty strings; correct_answer empty, or neither an
option letter A–D (case-insensitively, after stripping) nor the literal
text of one option; explanation empty; difficulty not one of
easy/medium/hard; topic empty — and every candidate in the spec's
malformed set is rejected. -/
theorem validate_question_rules :
    (∀ q : CandidateQuestion,
      validate_question q = false ↔
        (pyStrip q.question = "" ∨
         (banned_patterns.any fun p => pyContains (pyLower q.question) p) = true ∨
         (generic_questions.any fun g => pyStartsWith (pyLower q.question) g) = true ∨
         pyLen (pyStrip q.question) < 30 ∨
         (q.options.length ≠ 4 ∨ (q.options.all fun o => pyStrip o ≠ "") ≠ true) ∨
         pyStrip q.correct_answer = "" ∨
         (letter_answers.contains (pyUpper (pyStrip q.correct_answer)) ≠ true ∧
          q.options.contains (pyStrip q.correct_answer) ≠ true) ∨
         pyStrip q.explanation = "" ∨
         (["easy", "medium", "hard"].contains (pyLower q.difficulty)) ≠ true ∨
         pyStrip q.topic = "")) ∧
    validate_question malformedEmptyText = false ∧
    validate_question malformedPdfUnderscore = false ∧
    validate_question malformedThreeOptions = false ∧
    validate_question malformedAnswerE = false ∧
    validate_question malformedEmptyExplanation = false ∧
    validate_question malformedDifficultyTrivial = false := by
  constructor
  · intro q
    unfold validate_question
    split
    next h1 => exact iff_of_true rfl (Or.inl h1)
    next h1 =>
    split
    next h2 => exact iff_of_true rfl (Or.inr (Or.inl h2))
    next h2 =>
    split
    next h3 => exact iff_of_true rfl (Or.inr (Or.inr (Or.inl h3)))
    next h3 =>
    split
    next h4 => exact iff_of_true rfl (Or.inr (Or.inr (Or.inr (Or.inl h4))))
    next h4 =>
    split
    next h5 =>
      exact iff_of_true rfl
        (Or.inr (Or.inr (Or.inr (Or.inr (Or.inl (Or.inl h5))))))
    next h5 =>
    split
    next h6 =>
      exact iff_of_true rfl
        (Or.inr (Or.inr (Or.inr (Or.inr (Or.inl (Or.inr h6))))))
    next h6 =>
    split
    next h7 =>
      exact iff_of_true rfl
        (Or.inr (Or.inr (Or.inr (Or.inr (Or.inr (Or.inl h7))))))
    next h7 =>
    split
    next h8 =>
      refine iff_of_true rfl
        (Or.inr (Or.inr (Or.inr (Or.inr (Or.inr (Or.inr (Or.inl ⟨?_, ?_⟩)))))))
      · exact fun ha => h8 (by rw [ha, Bool.true_or])
      · exact fun hb => h8 (by rw [hb, Bool.or_true])
    next h8 =>
    split
    next h9 =>
      exact iff_of_true rfl
        (Or.inr (Or.inr (Or.inr (Or.inr (Or.inr (Or.inr (Or.inr (Or.inl h9))))))))
    next h9 =>
    split
    next h10 =>
      exact iff_of_true rfl
        (Or.inr (Or.inr (Or.inr (Or.inr (Or.inr (Or.inr (Or.inr (Or.inr
          (Or.inl h10)))))))))
    next h10 =>
    split
    next h11 =>
      exact iff_of_true rfl
        (Or.inr (Or.inr (Or.inr (Or.inr (Or.inr (Or.inr (Or.inr (Or.inr
          (Or.inr h11)))))))))
    next h11 =>
      refine iff_of_false (by simp) ?_
      rintro (h | h | h | h | (h | h) | h | ⟨ha, hb⟩ | h | h | h)
      · exact h1 h
      · exact h2 h
      · exact h3 h
      · exact h4 h
      · exact h5 h
      · exact h (not_not.mp h6)
      · exact h7 h
      · have hor := not_not.mp h8
        simp only [Bool.or_eq_true] at hor
        rcases hor with h | h
        · exact ha h
        · exact hb h
      · exact h9 h
      · exact h (not_not.mp h10)
      · exact h11 h
  · refine ⟨?_, ?_, ?_, ?_, ?_, ?_⟩ <;> decide

/-- C3 witness: the rule characterization applied at the empty-text
candidate. -/
theorem validate_question_rules_witness :
    validate_question malformedEmptyText = false :=
  (validate_question_rules.1 malformedEmptyText).mpr (Or.inl (by decide))

/-- C9: for a candidate passing every other rule, the validator accepts
exactly when the stripped correct_answer uppercases to one of A–D or is a
literal, case-sensitive member of the options; concretely, the letter
forms a and padded b are accepted, the exact option text while is
accepted, and its case variant While is rejected. -/
theorem correct_answer_format_asymmetry :
    (∀ q : CandidateQuestion,
      pyStrip q.question ≠ "" →
      (banned_patterns.any fun p => pyContains (pyLower q.question) p) = false →
      (generic_questions.any fun g => pyStartsWith (pyLower q.question) g) = false →
      ¬ pyLen (pyStrip q.question) < 30 →
      q.options.length = 4 →
      (q.options.all fun o => pyStrip o ≠ "") = true →
      pyStrip q.explanation ≠ "" →
      (["easy", "medium", "hard"].contains (pyLower q.difficulty)) = true →
      pyStrip q.topic ≠ "" →
      (validate_question q = true ↔
        (letter_answers.contains (pyUpper (pyStrip q.correct_answer)) = true ∨
         q.options.contains (pyStrip q.correct_answer) = true))) ∧
    validate_question { baseCandidate with correct_answer := "a" } = true ∧
    validate_question { baseCandidate with correct_answer := " b " } = true ∧
    validate_question { baseCandidate with correct_answer := "while" } = true ∧
    validate_question { baseCandidate with correct_answer := "While" } = false := by
  constructor
  · intro q h1 h2 h3 h4 h5 h6 h7 h8 h9
    unfold validate_question
    rw [if_neg h1, if_neg (by simp [h2]), if_neg (by simp [h3]), if_neg h4,
        if_neg (not_not_intro h5), if_neg (not_not_intro h6)]
    by_cases hca : pyStrip q.correct_answer = ""
    · rw [if_pos hca]
      refine iff_of_false (by simp) ?_
      rintro (hl | hc)
      · rw [hca] at hl
        exact absurd hl (by decide)
      · rw [hca] at hc
        have hmem : ("" : String) ∈ q.options := by simpa using hc
        have h' := List.all_eq_true.mp h6 _ hmem
        exact absurd (of_decide_eq_true h') (by decide)
    · rw [if_neg hca]
      split
      next h =>
        refine iff_of_false (by simp) ?_
        rintro (hl | hc)
        · exact h (by rw [hl, Bool.true_or])
        · exact h (by rw [hc, Bool.or_true])
      next h =>
        have hor := not_not.mp h
        simp only [Bool.or_eq_true] at hor
        exact iff_of_true rfl hor
  · refine ⟨?_, ?_, ?_, ?_⟩ <;> decide

/-- C9 witness: the acceptance rule applied at the padded-letter
candidate. -/
theorem correct_answer_format_asymmetry_witness :
    validate_question { baseCandidate with correct_answer := " b " } = true :=
  (correct_answer_format_asymmetry.1 _ (by decide) (by decide) (by decide)
      (by decide) (by decide) (by decide) (by decide) (by decide)
      (by decide)).mpr (Or.inl (by decide))

/-- C6 counterexample: for the source title Cooking Basics with id doc-7,
whose search text matches neither the DevOps nor the Python lexicon (and
does not contain the word module), `detect_course_name` returns the
literal Python — which is neither the first significant word of the
source name (Cooking) nor a literal General or Unknown. -/
theorem course_fallback_counterexample :
    (devops_indicators.all fun k =>
        !pyContains (courseSearchText (some "Cooking Basics") "doc-7") k) = true ∧
    (python_indicators.all fun k =>
        !pyContains (courseSearchText (some "Cooking Basics") "doc-7") k) = true ∧
    pyContains (courseSearchText (some "Cooking Basics") "doc-7") "module" = false ∧
    detect_course_name (some "Cooking Basics") "doc-7" = "Python" ∧
    pyTitle (pyWords "Cooking Basics").head! = "Cooking" ∧
    ("Python" : String) ≠ "Cooking" ∧ ("Python" : String) ≠ "General" ∧
    ("Python" : String) ≠ "Unknown" := by decide

/-- C6 amended: a search text containing any DevOps-lexicon keyword is
classified DevOps by `detect_course_name` (the DevOps lexicon is checked
before the Python one, so this holds in particular when keywords of both
lexicons occur); a search text matching neither lexicon and not containing
the word module falls back to the literal Python; and the topic
classifier `extract_topic_from_source`, when no skill keyword matches,
falls back to the title-cased first significant word of a spaced source
name, the first 30 characters of an unspaced non-empty name, or the
literal General for an empty name. -/
theorem course_and_topic_classification :
    (∀ (title : Option String) (id : String),
      (devops_indicators.any fun k =>
          pyContains (courseSearchText title id) k) = true →
      detect_course_name title id = "DevOps") ∧
    (∀ (title : Option String) (id : String),
      (devops_indicators.any fun k =>
          pyContains (courseSearchText title id) k) = false →
      (python_indicators.any fun k =>
          pyContains (courseSearchText title id) k) = false →
      pyContains (courseSearchText title id) "module" = false →
      detect_course_name title id = "Python") ∧
    (∀ (name ty : String),
      (skill_keywords.all fun kv => !pyContains (pyLower name) kv.1) = true →
      extract_topic_from_source name ty =
        if pyContains name " " ∧ pyWords name ≠ [] then
          pyTitle (pyWords name).head!
        else if name ≠ "" then pyTake name 30
        else "General") := by
  refine ⟨?_, ?_, ?_⟩
  · intro title id h
    simp [detect_course_name, h]
  · intro title id h1 h2 h3
    simp [detect_course_name, h1, h2, h3]
  · intro name ty h
    have hfind : skill_keywords.find? (fun kv => pyContains (pyLower name) kv.1) = none := by
      refine List.find?_eq_none.mpr ?_
      intro kv hkv
      have := List.all_eq_true.mp h kv hkv
      simp_all
    simp [extract_topic_from_source, hfind]

/-- C6 witness: a title carrying keywords of both lexicons (docker from
the DevOps lexicon, python and loops from the Python lexicon) classifies
as DevOps, and a keyword-free name falls back to its first significant
word. -/
theorem course_and_topic_classification_witness :
    detect_course_name (some "Docker with Python Loops") "d1" = "DevOps" ∧
    extract_topic_from_source "Cooking Basics" "pdf" = "Cooking" := by
  constructor
  · exact course_and_topic_classification.1 (some "Docker with Python Loops") "d1"
      (by decide)
  · have h := course_and_topic_classification.2.2 "Cooking Basics" "pdf" (by decide)
    simpa using h

/-- Every entry of a cache rebuilt from the store (starting from an
arbitrary cache) either comes from the initial cache or points at a store
row whose extracted pdf id is the entry key. -/
theorem cacheFold_some {rows : List AssessmentRecord} :
    ∀ {c : String → Option AssessmentRecord} {k : String} {r : AssessmentRecord},
      rows.foldl cacheStep c k = some r →
      c k = some r ∨ (r ∈ rows ∧ extract_pdf_id r.blueprint = some k) := by
  induction rows with
  | nil => intro c k r h; exact Or.inl h
  | cons row rest ih =>
    intro c k r h
    rcases ih h with h' | h'
    · rcases he : extract_pdf_id row.blueprint with _ | pdfId
      · have hstep : cacheStep c row = c := by unfold cacheStep; rw [he]
        rw [hstep] at h'
        exact Or.inl h'
      · have hstep : cacheStep c row = cacheInsert c pdfId row := by
          unfold cacheStep; rw [he]
        rw [hstep] at h'
        unfold cacheInsert at h'
        by_cases hk : k = pdfId
        · rw [if_pos hk] at h'
          cases h'
          exact Or.inr ⟨List.mem_cons_self _ _, by rw [he, hk]⟩
        · rw [if_neg hk] at h'
          exact Or.inl h'
    · exact Or.inr ⟨List.mem_cons_of_mem _ h'.1, h'.2⟩

/-- If a rebuilt cache has no entry at a key, no row of the scanned store
extracts to that key. -/
theorem cacheFold_none {rows : List AssessmentRecord} :
    ∀ {c : String → Option AssessmentRecord} {k : String},
      rows.foldl cacheStep c k = none →
      c k = none ∧ ∀ r ∈ rows, extract_pdf_id r.blueprint ≠ some k := by
  induction rows with
  | nil =>
    intro c k h
    exact ⟨h, by simp⟩
  | cons row rest ih =>
    intro c k h
    rcases ih h with ⟨hc, hrest⟩
    rcases he : extract_pdf_id row.blueprint with _ | pdfId
    · have hstep : cacheStep c row = c := by unfold cacheStep; rw [he]
      rw [hstep] at hc
      refine ⟨hc, ?_⟩
      intro r hr
      rcases List.mem_cons.mp hr with rfl | hr
      · rw [he]; simp
      · exact hrest r hr
    · have hstep : cacheStep c row = cacheInsert c pdfId row := by
        unfold cacheStep; rw [he]
      rw [hstep] at hc
      unfold cacheInsert at hc
      by_cases hk : k = pdfId
      · rw [if_pos hk] at hc
        cases hc
      · rw [if_neg hk] at hc
        refine ⟨hc, ?_⟩
        intro r hr
        rcases List.mem_cons.mp hr with rfl | hr
        · rw [he]
          intro hcontra
          exact hk (Option.some.inj hcontra).symm
        · exact hrest r hr

/-- The entries of a populated cache all point at store rows keyed by
their extracted pdf id. -/
theorem buildCache_spec {rows : List AssessmentRecord} {k : String}
    {r : AssessmentRecord} (h : buildCache rows k = some r) :
    r ∈ rows ∧ extract_pdf_id r.blueprint = some k := by
  rcases cacheFold_some h with h' | h'
  · cases h'
  · exact h'

/-- A store row extracting to a key forces the populated cache to carry an
entry at that key. -/
theorem buildCache_mem_ne_none {rows : List AssessmentRecord} {k : String}
    {r : AssessmentRecord} (hr : r ∈ rows)
    (he : extract_pdf_id r.blueprint = some k) :
    buildCache rows k ≠ none :=
  fun h => (cacheFold_none h).2 r hr he

/-- The duplicate check never touches the stored tables: it only refreshes
the cache. -/
theorem check_preserves_assessments (s : GenState) (pdf : String) :
    (check_assessment_exists_by_pdf_id s pdf).2.1.assessments = s.assessments := by
  rcases h : s.assessment_cache pdf with _ | r <;>
    simp [check_assessment_exists_by_pdf_id, h, populate_assessment_cache]

/-- Course get-or-create touches only the courses table and the course-id
counter. -/
theorem get_or_create_course_preserves (s : GenState) (n : String) :
    (get_or_create_course s n).2.assessments = s.assessments ∧
    (get_or_create_course s n).2.assessment_cache = s.assessment_cache ∧
    (get_or_create_course s n).2.nextAssessmentId = s.nextAssessmentId := by
  unfold get_or_create_course
  by_cases h : pyStrip n = ""
  · rw [if_pos h]
    exact ⟨rfl, rfl, rfl⟩
  · rw [if_neg h]
    rcases hf : s.courses.find? (fun kv => kv.2 = pyStrip n) with _ | kv <;>
      simp [hf]

/-- A cache hit makes `create_assessment` return the cached record's id
and leave the state untouched: no insert happens. -/
theorem create_no_insert_of_cache_hit (s : GenState) (pdf : String)
    (title : Option String) (r : AssessmentRecord)
    (h : s.assessment_cache pdf = some r) :
    create_assessment s pdf title = (some r.id, s) := by
  have hch : check_assessment_exists_by_pdf_id s pdf = (some r, s, false) := by
    simp [check_assessment_exists_by_pdf_id, h]
  simp [create_assessment, hch]

/-- Some cache entry at the pdf id prevents any insert by
`create_assessment`. -/
theorem create_no_insert_of_cache_ne_none (s : GenState) (pdf : String)
    (title : Option String) (h : s.assessment_cache pdf ≠ none) :
    (create_assessment s pdf title).2.assessments = s.assessments := by
  rcases hx : s.assessment_cache pdf with _ | r
  · exact absurd hx h
  · rw [create_no_insert_of_cache_hit s pdf title r hx]

/-- A store row carrying the pdf id in its blueprint prevents any insert
by `create_assessment`: on a cache miss the refresh finds the row. -/
theorem create_no_insert_of_store_hit (s : GenState) (pdf : String)
    (title : Option String) (r : AssessmentRecord)
    (hr : r ∈ s.assessments) (he : extract_pdf_id r.blueprint = some pdf) :
    (create_assessment s pdf title).2.assessments = s.assessments := by
  rcases h : s.assessment_cache pdf with _ | r0
  · rcases h2 : buildCache s.assessments pdf with _ | r1
    · exact absurd h2 (buildCache_mem_ne_none hr he)
    · have hch : check_assessment_exists_by_pdf_id s pdf =
          (some r1, populate_assessment_cache s, true) := by
        simp [check_assessment_exists_by_pdf_id, h, populate_assessment_cache, h2]
      simp [create_assessment, hch, populate_assessment_cache]
  · rw [create_no_insert_of_cache_hit s pdf title r0 h]

/-- After any `create_assessment` call, the returned state's cache carries
an entry for the pdf id: either the hit that was found, or the record
inserted and cached before returning. -/
theorem create_cache_hit_after (s : GenState) (pdf : String)
    (title : Option String) :
    (create_assessment s pdf title).2.assessment_cache pdf ≠ none := by
  rcases h : s.assessment_cache pdf with _ | r0
  · rcases h2 : buildCache s.assessments pdf with _ | r1
    · have hch : check_assessment_exists_by_pdf_id s pdf =
          (none, populate_assessment_cache s, true) := by
        simp [check_assessment_exists_by_pdf_id, h, populate_assessment_cache, h2]
      simp [create_assessment, hch, cacheInsert]
    · have hch : check_assessment_exists_by_pdf_id s pdf =
          (some r1, populate_assessment_cache s, true) := by
        simp [check_assessment_exists_by_pdf_id, h, populate_assessment_cache, h2]
      simp [create_assessment, hch, populate_assessment_cache, h2]
  · rw [create_no_insert_of_cache_hit s pdf title r0 h]
    simp [h]

/-- After `create_assessment` for a non-empty pdf id equal to its stripped
form, the returned state's store carries a row whose blueprint extracts to
that pdf id — found, or freshly inserted — provided the starting cache is
store-consistent. -/
theorem create_store_hit_after (s : GenState) (pdf : String)
    (title : Option String) (hcons : cacheConsistent s) (hne : pdf ≠ "")
    (htrim : pyStrip pdf = pdf) :
    ∃ r ∈ (create_assessment s pdf title).2.assessments,
      extract_pdf_id r.blueprint = some pdf := by
  rcases h : s.assessment_cache pdf with _ | r0
  · rcases h2 : buildCache s.assessments pdf with _ | r1
    · have hch : check_assessment_exists_by_pdf_id s pdf =
          (none, populate_assessment_cache s, true) := by
        simp [check_assessment_exists_by_pdf_id, h, populate_assessment_cache, h2]
      simp only [create_assessment, hch]
      refine ⟨_, List.mem_append_right _ (List.mem_singleton_self _), ?_⟩
      simp [extract_pdf_id, htrim, hne]
    · have hch : check_assessment_exists_by_pdf_id s pdf =
          (some r1, populate_assessment_cache s, true) := by
        simp [check_assessment_exists_by_pdf_id, h, populate_assessment_cache, h2]
      have hspec := buildCache_spec h2
      refine ⟨r1, ?_, hspec.2⟩
      simp [create_assessment, hch, populate_assessment_cache, hspec.1]
  · rw [create_no_insert_of_cache_hit s pdf title r0 h]
    exact ⟨r0, (hcons pdf r0 h).1, (hcons pdf r0 h).2⟩

/-- C1 counterexample: for the pdf id consisting of a space followed by x,
one pipeline run inserts an assessment, the end-of-run cache refresh
re-keys it under the stripped id, and a second run over the unchanged
source set inserts a second assessment whose blueprint carries the same
pdf id — so the persistence layer does not guarantee at most one
Assessment per source identifier, and a re-run does not preserve the
number of Assessments. -/
theorem duplicate_assessment_on_rerun_counterexample :
    (create_assessment (initState [] [] [] 0 0) " x" (some "Title")).2.assessments.length = 1 ∧
    (create_assessment
        (populate_assessment_cache
          (create_assessment (initState [] [] [] 0 0) " x" (some "Title")).2)
        " x" (some "Title")).2.assessments.length = 2 ∧
    ((create_assessment
        (populate_assessment_cache
          (create_assessment (initState [] [] [] 0 0) " x" (some "Title")).2)
        " x" (some "Title")).2.assessments.all
      fun r => r.blueprint = some { pdfId := some " x" }) = true := by decide

/-- C1 amended: for every non-empty pdf id equal to its stripped form, and
every state whose cache is store-consistent, the persistence layer creates
at most one Assessment for that id: when the duplicate check finds an
existing record, `create_assessment` returns that record's id and performs
no insert (the check itself never writes the store), and re-running
`create_assessment` — directly or after the end-of-run cache refresh —
leaves the number of Assessments unchanged. -/
theorem assessment_dedup_idempotent (s : GenState) (pdf : String)
    (title title2 : Option String) (hcons : cacheConsistent s)
    (hne : pdf ≠ "") (htrim : pyStrip pdf = pdf) :
    (∀ r, (check_assessment_exists_by_pdf_id s pdf).1 = some r →
        create_assessment s pdf title =
          (some r.id, (check_assessment_exists_by_pdf_id s pdf).2.1)) ∧
    (check_assessment_exists_by_pdf_id s pdf).2.1.assessments = s.assessments ∧
    (create_assessment (create_assessment s pdf title).2 pdf title2).2.assessments =
      (create_assessment s pdf title).2.assessments ∧
    (create_assessment
        (populate_assessment_cache (create_assessment s pdf title).2)
        pdf title2).2.assessments =
      (create_assessment s pdf title).2.assessments := by
  refine ⟨?_, check_preserves_assessments s pdf, ?_, ?_⟩
  · intro r hr
    rcases h : s.assessment_cache pdf with _ | r0
    · have hb : buildCache s.assessments pdf = some r := by
        have hproj : (check_assessment_exists_by_pdf_id s pdf).1 =
            buildCache s.assessments pdf := by
          simp [check_assessment_exists_by_pdf_id, h, populate_assessment_cache]
        rw [hproj] at hr
        exact hr
      have hch : check_assessment_exists_by_pdf_id s pdf =
          (some r, populate_assessment_cache s, true) := by
        simp [check_assessment_exists_by_pdf_id, h, populate_assessment_cache, hb]
      rw [hch]
      simp [create_assessment, hch]
    · have hch : check_assessment_exists_by_pdf_id s pdf = (some r0, s, false) := by
        simp [check_assessment_exists_by_pdf_id, h]
      have hr0 : r0 = r := by
        rw [hch] at hr
        exact Option.some.inj hr
      subst hr0
      rw [hch]
      exact create_no_insert_of_cache_hit s pdf title r0 h
  · exact create_no_insert_of_cache_ne_none _ pdf title2
      (create_cache_hit_after s pdf title)
  · obtain ⟨r, hrmem, hrext⟩ := create_store_hit_after s pdf title hcons hne htrim
    exact create_no_insert_of_store_hit _ pdf title2 r hrmem hrext

/-- C1 witness: the idempotency conclusion applied at the empty initial
state and the source id doc-1. -/
theorem assessment_dedup_idempotent_witness :
    (create_assessment
        (populate_assessment_cache
          (create_assessment (initState [] [] [] 0 0) "doc-1" (some "Title")).2)
        "doc-1" (some "Title")).2.assessments =
      (create_assessment (initState [] [] [] 0 0) "doc-1" (some "Title")).2.assessments :=
  (assessment_dedup_idempotent (initState [] [] [] 0 0) "doc-1" (some "Title")
      (some "Title")
      (fun k r h => by
        simp [initState, populate_assessment_cache, buildCache, emptyCache] at h)
      (by decide) (by decide)).2.2.2

/-- C8: when the duplicate check finds nothing for a pdf id,
`create_assessment` inserts a new record and places it in the in-memory
cache before returning, so the immediately following in-process lookup
via `check_assessment_exists_by_pdf_id` returns that record straight from
the cache — with no store query (the refresh flag is false) and no state
change. -/
theorem dedup_cache_consistency (s : GenState) (pdf : String)
    (title : Option String)
    (hnone : (check_assessment_exists_by_pdf_id s pdf).1 = none) :
    ∃ record : AssessmentRecord,
      (create_assessment s pdf title).1 = some record.id ∧
      record.blueprint = some { pdfId := some pdf } ∧
      check_assessment_exists_by_pdf_id (create_assessment s pdf title).2 pdf =
        (some record, (create_assessment s pdf title).2, false) := by
  rcases h : s.assessment_cache pdf with _ | r0
  · rcases h2 : buildCache s.assessments pdf with _ | r1
    · have hch : check_assessment_exists_by_pdf_id s pdf =
          (none, populate_assessment_cache s, true) := by
        simp [check_assessment_exists_by_pdf_id, h, populate_assessment_cache, h2]
      refine ⟨{ id := (get_or_create_course (populate_assessment_cache s)
                  (detect_course_name title pdf)).2.nextAssessmentId,
                blueprint := some { pdfId := some pdf },
                courseId := (get_or_create_course (populate_assessment_cache s)
                  (detect_course_name title pdf)).1,
                status := "published" }, ?_, rfl, ?_⟩
      · simp [create_assessment, hch]
      · have hcache : (create_assessment s pdf title).2.assessment_cache pdf =
            some { id := (get_or_create_course (populate_assessment_cache s)
                      (detect_course_name title pdf)).2.nextAssessmentId,
                   blueprint := some { pdfId := some pdf },
                   courseId := (get_or_create_course (populate_assessment_cache s)
                      (detect_course_name title pdf)).1,
                   status := "published" } := by
          simp [create_assessment, hch, cacheInsert]
        simp [check_assessment_exists_by_pdf_id, hcache]
    · have hch : check_assessment_exists_by_pdf_id s pdf =
          (some r1, populate_assessment_cache s, true) := by
        simp [check_assessment_exists_by_pdf_id, h, populate_assessment_cache, h2]
      rw [hch] at hnone
      exact absurd hnone (by simp)
  · exfalso
    simp [check_assessment_exists_by_pdf_id, h] at hnone


/-- C8 witness: the cache-consistency property applied at the empty
initial state for the source id doc-42. -/
theorem dedup_cache_consistency_witness :
    ∃ record : AssessmentRecord,
      (create_assessment (initState [] [] [] 0 0) "doc-42" (some "Doc 42")).1 =
        some record.id ∧
      record.blueprint = some { pdfId := some "doc-42" } ∧
      check_assessment_exists_by_pdf_id
          (create_assessment (initState [] [] [] 0 0) "doc-42" (some "Doc 42")).2
          "doc-42" =
        (some record,
         (create_assessment (initState [] [] [] 0 0) "doc-42" (some "Doc 42")).2,
         false) :=
  dedup_cache_consistency (initState [] [] [] 0 0) "doc-42" (some "Doc 42")
    (by decide)
